import Mathlib

/-!
Shallow embedding of the incremental aggregation core of the ECMWF
seasonal-precipitation scraper (`src/hdx/scraper/ecmwf/pipeline.py`).

Dates are modelled as (year, month, day) triples ordered lexicographically,
mirroring Python `datetime` comparison.  `relativedelta` arithmetic
(month advancement, year subtraction with day clamping) is reproduced from
`dateutil`.  The CDS client, the local filesystem and the HDX publishing
target are opaque collaborators, modelled as oracle functions supplied in a
`CdsEnv`.  The mutable `Pipeline` attributes (`existing_dates`, `grib_data`,
`processed_data`) become an explicit state record threaded through each step,
extended with a log (`attempts`) of every request submitted to the client.
-/

/-- Calendar date, mirroring Python `datetime` at day granularity. -/
structure Date where
  year : Int
  month : Nat
  day : Nat
deriving Repr, DecidableEq

/-- Python `datetime` comparison: lexicographic on (year, month, day). -/
def dateLe (a b : Date) : Bool :=
  decide (a.year < b.year) ||
    (decide (a.year = b.year) &&
      (decide (a.month < b.month) ||
        (decide (a.month = b.month) && decide (a.day ≤ b.day))))

/-- `calendar.isleap` from the Python standard library. -/
def isLeap (y : Int) : Bool :=
  y % 4 == 0 && (y % 100 != 0 || y % 400 == 0)

/-- `calendar.monthrange(y, m)[1]`: number of days in the month. -/
def daysInMonth (y : Int) (m : Nat) : Nat :=
  if m = 2 then (if isLeap y then 29 else 28)
  else if m = 4 ∨ m = 6 ∨ m = 9 ∨ m = 11 then 30
  else 31

/-- `d - relativedelta(years=k)`: replace the year, clamping the day to the
length of the resulting month (Feb 29 → Feb 28). -/
def subYears (d : Date) (k : Int) : Date :=
  let y := d.year - k
  { year := y, month := d.month, day := min d.day (daysInMonth y d.month) }

/-- `d + relativedelta(months=k)`: advance by k months with year/month
normalization and day clamping, as in `dateutil`. -/
def addMonths (d : Date) (k : Nat) : Date :=
  let t := (d.month - 1) + k
  let y := d.year + ((t / 12 : Nat) : Int)
  let m := t % 12 + 1
  { year := y, month := m, day := min d.day (daysInMonth y m) }

/-- `today - relativedelta(years=3)` as used by the partition routing and the
recovery filter. -/
def past3yrs (today : Date) : Date := subYears today 3

/-- Python `str(month).zfill(2)` for the issue-month column. -/
def zfill2 (m : Nat) : String :=
  if m < 10 then "0" ++ toString m else toString m

/-- The `f"{year}-{str(month).zfill(2)}"` period key used for coverage
bookkeeping. -/
def periodStr (y : Int) (m : Nat) : String :=
  toString y ++ "-" ++ zfill2 m

/-- Python list/str lexicographic `<` on character lists (code-point order;
a strict prefix is smaller). -/
def charListLt : List Char → List Char → Bool
  | _, [] => false
  | [], _ :: _ => true
  | a :: as, b :: bs => a < b || (a = b && charListLt as bs)

/-- Python string `<` (used by the recovery recency filter via `>`). -/
def strLt (a b : String) : Bool := charListLt a.data b.data

/-- Whether character list `s` starts with `p`. -/
def startsWith : List Char → List Char → Bool
  | _, [] => true
  | [], _ :: _ => false
  | c :: cs, p :: ps => c = p && startsWith cs ps

/-- Whether `pat` occurs as a contiguous subsequence of `s`
(Python `pat in s`). -/
def containsSeq : List Char → List Char → Bool
  | [], pat => startsWith [] pat
  | c :: cs, pat => startsWith (c :: cs) pat || containsSeq cs pat

/-- Python substring test `pat in s`. -/
def strContains (s pat : String) : Bool := containsSeq s.data pat.data

/-- Python `s.split(sep)` for a single-character separator, empty pieces
included. -/
def splitChars (sep : Char) : List Char → List (List Char)
  | [] => [[]]
  | c :: cs =>
    let r := splitChars sep cs
    if c = sep then [] :: r
    else
      match r with
      | [] => [[c]]
      | g :: gs => (c :: g) :: gs

/-- Python `"_".join(groups)`. -/
def joinUnderscore : List (List Char) → List Char
  | [] => []
  | [g] => g
  | g :: gs => g ++ '_' :: joinUnderscore gs

/-- Insert a string into a sorted list (ascending code-point order). -/
def insertStr (s : String) : List String → List String
  | [] => [s]
  | t :: ts => if strLt s t then s :: t :: ts else t :: insertStr s ts

/-- Insertion sort on strings, modelling Python `sorted`. -/
def sortStrs : List String → List String
  | [] => []
  | s :: ss => insertStr s (sortStrs ss)

/-- Python `sorted(list(set(l)))`: the sorted list of distinct elements. -/
def pySortedSet (l : List String) : List String := sortStrs l.dedup

/-- One CSV request to the CDS client (`request` dict in
`Pipeline.download_cds_data`). -/
structure Request where
  originating_centre : String
  system : String
  variableName : List String
  product_type : List String
  year : String
  month : List String
  leadtime_month : List String
  data_format : String
deriving Repr, DecidableEq

/-- One row of a previously published CSV resource; the columns other than
the issue period are opaque payload. -/
structure CsvRow where
  issue_year : Int
  issue_month : Nat
  payload : String
deriving Repr, DecidableEq

/-- A previously published HDX resource (name, format and its CSV rows). -/
structure PubResource where
  name : String
  format : String
  rows : List CsvRow
deriving Repr, DecidableEq

/-- The mutable `Pipeline` attributes threaded as explicit state, plus a log
of every request submitted to `client.retrieve`. -/
structure PState where
  existing_dates : List String
  grib_data : List String
  attempts : List Request
  processed : List (String × List CsvRow)
deriving Repr, DecidableEq

/-- `Pipeline.__init__`: empty history, no downloaded files. -/
def initialState : PState :=
  { existing_dates := [], grib_data := [], attempts := [], processed := [] }

/-- The opaque collaborators: local filesystem, CDS retrieval outcome, the
published dataset (if any) and the download root directory. -/
structure CdsEnv where
  fileExists : String → Bool
  retrieveOk : Request → Bool
  resources : Option (List PubResource)
  rootDir : String

/-- The fixed CDS variable name. -/
def variableName : String := "total_precipitation_anomalous_rate_of_accumulation"

/-- The request dict built in `Pipeline.download_cds_data` for one year. -/
def mkRequest (year : Int) (months : List String) : Request :=
  { originating_centre := "ecmwf"
    system := "51"
    variableName := [variableName]
    product_type := ["ensemble_mean"]
    year := toString year
    month := months
    leadtime_month := ["1", "2", "3", "4", "5", "6"]
    data_format := "grib" }

/-- `end_month = 12 if year != today.year else today.month`. -/
def endMonth (year : Int) (today : Date) : Nat :=
  if year ≠ today.year then 12 else today.month

/-- The per-year missing-month list: months `1..end_month` whose period key
is absent from `existing_dates`, each rendered as Python `str(month)`. -/
def missingMonths (existing : List String) (year : Int) (today : Date) : List String :=
  (List.range' 1 (endMonth year today)).filterMap (fun month =>
    if periodStr year month ∈ existing then none else some (toString month))

/-- `Pipeline.download_grib`: register an already-present file, otherwise
submit the request; on HTTP failure report `false` and register nothing. -/
def download_grib (env : CdsEnv) (request : Request) (filepath : String)
    (st : PState) : Bool × PState :=
  if env.fileExists filepath then
    (true, { st with grib_data := st.grib_data ++ [filepath] })
  else if env.retrieveOk request then
    (true, { st with attempts := st.attempts ++ [request],
                     grib_data := st.grib_data ++ [filepath] })
  else
    (false, { st with attempts := st.attempts ++ [request] })

/-- The grib file path for one year (`join(root_dir, f"{variable}_{year}.grib")`). -/
def gribPath (rootDir : String) (year : Int) : String :=
  rootDir ++ "/" ++ variableName ++ "_" ++ toString year ++ ".grib"

/-- One iteration of the year loop in `Pipeline.download_cds_data`: compute
the missing months, skip if none, otherwise attempt the download and — only
for the current year and only on failure — retry once with the most recent
month dropped. -/
def processYear (env : CdsEnv) (today : Date) (st : PState) (year : Int) : PState :=
  let months := missingMonths st.existing_dates year today
  if months = [] then st
  else
    let filepath := gribPath env.rootDir year
    let res := download_grib env (mkRequest year months) filepath st
    if year = today.year ∧ res.1 = false then
      (download_grib env (mkRequest year months.dropLast) filepath res.2).2
    else res.2

/-- `range(min_year, today.year + 1)`. -/
def yearRange (minYear : Int) (today : Date) : List Int :=
  (List.range (today.year + 1 - minYear).toNat).map (fun i => minYear + i)

/-- The partition identifier recovered from a resource file name:
`"_".join(name[:-4].split("_")[3:])`. -/
def recoverIdentifier (name : String) : String :=
  String.mk (joinUnderscore ((splitChars '_'
    (name.data.take (name.data.length - 4))).drop 3))

/-- The non-zero-padded cutoff string `f"{past_3yrs.year}-{past_3yrs.month}"`
used by the recovery recency filter. -/
def cutoffStr (today : Date) : String :=
  let p := past3yrs today
  toString p.year ++ "-" ++ toString p.month

/-- Python dict assignment `d[k] = v` on an association list. -/
def dictSet (d : List (String × List CsvRow)) (k : String) (v : List CsvRow) :
    List (String × List CsvRow) :=
  match d with
  | [] => [(k, v)]
  | p :: rest => if p.1 = k then (k, v) :: rest else p :: dictSet rest k v

/-- Python dict lookup `d.get(k)` on an association list. -/
def dictLookup (d : List (String × List CsvRow)) (k : String) : Option (List CsvRow) :=
  match d with
  | [] => none
  | p :: rest => if p.1 = k then some p.2 else dictLookup rest k

/-- The body of the resource loop in `Pipeline._get_uploaded_data`: skip
non-CSV resources; recover the partition identifier; load the rows, filtering
resources whose name contains `"3yrs"` to issue periods whose key string
strictly exceeds the cutoff; record the partition and union the (unfiltered)
issue periods into `existing_dates` (deduplicated, sorted). -/
def recoverResource (today : Date) (st : PState) (r : PubResource) : PState :=
  if r.format ≠ "csv" then st
  else
    let identifier := recoverIdentifier r.name
    let dates := r.rows.map (fun row => periodStr row.issue_year row.issue_month)
    let rows :=
      if strContains r.name "3yrs" then
        r.rows.filter (fun row =>
          strLt (cutoffStr today) (periodStr row.issue_year row.issue_month))
      else r.rows
    { st with processed := dictSet st.processed identifier rows,
              existing_dates := pySortedSet (dates ++ st.existing_dates) }

/-- `Pipeline._get_uploaded_data`: nothing on force-refresh or when the
dataset does not exist; otherwise fold over the published resources. -/
def get_uploaded_data (today : Date) (forceRefresh : Bool)
    (resources : Option (List PubResource)) (st : PState) : PState :=
  if forceRefresh then st
  else
    match resources with
    | none => st
    | some rs => rs.foldl (recoverResource today) st

/-- `Pipeline.download_cds_data`: recover prior state, loop over the year
range, and report whether at least one grib file was registered. -/
def download_cds_data (env : CdsEnv) (minYear : Int) (today : Date)
    (forceRefresh : Bool) (st : PState) : Bool × PState :=
  let st1 := get_uploaded_data today forceRefresh env.resources st
  let st2 := (yearRange minYear today).foldl (processYear env today) st1
  (decide (0 < st2.grib_data.length), st2)

/-- Pandas `column.isin(iso_list)` for one row's (possibly null) iso code:
a null value matches no list. -/
def isoIn (iso : Option String) (isos : List String) : Bool :=
  match iso with
  | none => false
  | some c => decide (c ∈ isos)

/-- `dict_of_lists_add(d, k, v)`: append `v` to the list at key `k`,
creating the entry if absent (Python dict update semantics). -/
def dictOfListsAdd (d : List (String × List String)) (k : String) (v : String) :
    List (String × List String) :=
  match d with
  | [] => [(k, [v])]
  | p :: rest => if p.1 = k then (p.1, p.2 ++ [v]) :: rest else p :: dictOfListsAdd rest k v

/-- The loop body of `_get_region_info`: skip a country whose region field
is falsy (missing or empty), otherwise add its ISO3 under its region. -/
def regionStep (acc : List (String × List String)) (c : String × Option String) :
    List (String × List String) :=
  match c.2 with
  | none => acc
  | some r => if r = "" then acc else dictOfListsAdd acc r c.1

/-- `_get_region_info()`: group ISO3 codes by their declared region, skipping
countries whose region field is falsy (missing or empty). -/
def get_region_info (countries : List (String × Option String)) :
    List (String × List String) :=
  countries.foldl regionStep []

/-- The region partitions one level-1 row is appended to: each region whose
ISO3 membership list contains the row's iso code, named
`f"adm1_{region_name.lower()}"`. -/
def regionIdents (regions : List (String × List String)) (iso : Option String) :
    List String :=
  regions.filterMap (fun p =>
    if isoIn iso p.2 then some ("adm1_" ++ p.1.toLower) else none)

/-- The partition identifiers one level-1 row is appended to in
`Pipeline.process` (lines 210–222): `adm1_global_3yrs` when
`valid_time >= today - relativedelta(years=3)`, then one `adm1_<region>`
per region containing the row's iso code. -/
def routeAdm1 (today validTime : Date) (iso : Option String)
    (regions : List (String × List String)) : List String :=
  (if dateLe (past3yrs today) validTime then ["adm1_global_3yrs"] else []) ++
    regionIdents regions iso

/-- `_get_country_info`: resolve a level-0 admin code to (iso3, name) through
the country reference collaborators `g2 : ISO2 → ISO3` and
`g3 : ISO3 → name`.  Codes longer than 3 are truncated to their first two
characters; length-3 codes are used as ISO3 directly; length-2 codes go
through `g2`; anything else (or a failed/falsy lookup) yields null fields. -/
def get_country_info (g2 : String → Option String) (g3 : String → Option String)
    (country_code : String) : Option String × Option String :=
  let code := if 3 < country_code.length
    then String.mk (country_code.data.take 2) else country_code
  let iso_code : Option String :=
    if code.length = 3 then some code
    else if code.length = 2 then g2 code
    else none
  match iso_code with
  | some iso => if iso = "" then (some iso, none) else (some iso, g3 iso)
  | none => (none, none)

/-- The accumulation materialized for one (issue period, lead time) cell:
`data * numdays * 24 * 60 * 60 * 1000` where `numdays` is the length of the
valid month and the valid period is the issue period advanced by
`leadtime_month - 1` months (`Pipeline.process`, lines 145–152). -/
def toAccumulation (rate : ℚ) (issue : Date) (leadtimeMonth : Nat) : ℚ :=
  let vt := addMonths issue (leadtimeMonth - 1)
  let numdays := daysInMonth vt.year vt.month
  rate * (numdays : ℚ) * 24 * 60 * 60 * 1000

/-! ## Helper lemmas -/

/-- Every month has at least 28 days. -/
theorem daysInMonth_ge (y : Int) (m : Nat) : 28 ≤ daysInMonth y m := by
  unfold daysInMonth
  split
  · split <;> norm_num
  · split <;> norm_num

/-- `download_grib` never touches `existing_dates`. -/
theorem download_grib_existing (env : CdsEnv) (r : Request) (fp : String)
    (st : PState) : ((download_grib env r fp st).2).existing_dates = st.existing_dates := by
  unfold download_grib
  split
  · rfl
  · split <;> rfl

/-- `download_grib` never touches `processed`. -/
theorem download_grib_processed (env : CdsEnv) (r : Request) (fp : String)
    (st : PState) : ((download_grib env r fp st).2).processed = st.processed := by
  unfold download_grib
  split
  · rfl
  · split <;> rfl

/-- One iteration of the year loop never touches `existing_dates`. -/
theorem processYear_existing (env : CdsEnv) (today : Date) (st : PState)
    (year : Int) : (processYear env today st year).existing_dates = st.existing_dates := by
  by_cases h : missingMonths st.existing_dates year today = []
  · simp [processYear, h]
  · by_cases hy : year = today.year ∧
        (download_grib env (mkRequest year (missingMonths st.existing_dates year today))
          (gribPath env.rootDir year) st).1 = false
    · obtain ⟨hy1, hy2⟩ := hy
      subst hy1
      simp [processYear, h, hy2, download_grib_existing]
    · simp [processYear, h, hy, download_grib_existing]

/-- The whole year loop never touches `existing_dates`. -/
theorem foldl_processYear_existing (env : CdsEnv) (today : Date) :
    ∀ (ys : List Int) (st : PState),
      (ys.foldl (processYear env today) st).existing_dates = st.existing_dates := by
  intro ys
  induction ys with
  | nil => intro st; rfl
  | cons y ys ih =>
    intro st
    rw [List.foldl_cons, ih, processYear_existing]

/-! ## Concrete fixtures used by witnesses and counterexamples -/

/-- An environment in which every retrieval attempt fails and no file is
present locally. -/
def envAllFail : CdsEnv :=
  { fileExists := fun _ => false, retrieveOk := fun _ => false,
    resources := none, rootDir := "r" }

/-- An environment in which every retrieval attempt succeeds and no file is
present locally. -/
def envAllOk : CdsEnv :=
  { fileExists := fun _ => false, retrieveOk := fun _ => true,
    resources := none, rootDir := "r" }

/-- A run state whose history covers January 2025 only. -/
def stJan : PState :=
  { existing_dates := ["2025-01"], grib_data := [], attempts := [], processed := [] }

/-- A run state whose history covers January and February 2025. -/
def stJanFeb : PState :=
  { existing_dates := ["2025-01", "2025-02"], grib_data := [], attempts := [],
    processed := [] }

/-! ## C6: missing-period computation -/

/-- C6: for every year, the requested month list contains exactly those
months `1 ≤ m ≤ end_month` (12 for non-current years, the current month for
the current year) whose `YYYY-MM` key is absent from the known-period set;
with no recovered history every month in range is missing; a year with an
empty missing list leaves the state untouched (no request is issued); and a
force-refresh recovery yields no prior history. -/
theorem claim_C6 (existing : List String) (year : Int) (today : Date) :
    (∀ s, s ∈ missingMonths existing year today ↔
      ∃ m, m ∈ List.range' 1 (endMonth year today) ∧ s = toString m ∧
        periodStr year m ∉ existing)
    ∧ missingMonths [] year today = (List.range' 1 (endMonth year today)).map toString
    ∧ (∀ (env : CdsEnv) (st : PState),
        missingMonths st.existing_dates year today = [] →
        processYear env today st year = st)
    ∧ (∀ (res : Option (List PubResource)) (st : PState),
        get_uploaded_data today true res st = st) := by
  refine ⟨?_, ?_, ?_, ?_⟩
  · intro s
    constructor
    · intro h
      rw [missingMonths, List.mem_filterMap] at h
      obtain ⟨m, hm, hf⟩ := h
      by_cases hp : periodStr year m ∈ existing
      · simp [hp] at hf
      · simp [hp] at hf
        exact ⟨m, hm, hf.symm, hp⟩
    · rintro ⟨m, hm, rfl, hp⟩
      rw [missingMonths, List.mem_filterMap]
      exact ⟨m, hm, by simp [hp]⟩
  · have h : ∀ l : List Nat,
        l.filterMap (fun month =>
          if periodStr year month ∈ ([] : List String) then none
          else some (toString month)) = l.map toString := by
      intro l
      induction l with
      | nil => rfl
      | cons a l ih => simpa using ih
    exact h _
  · intro env st h
    simp [processYear, h]
  · intro res st
    rfl

/-- Witness for C6: with history `["2025-01"]` and run date 2025-01-15 the
year 2025 has no missing months and its iteration is a no-op; force-refresh
recovery leaves the fresh state untouched. -/
theorem claim_C6_witness :
    processYear envAllFail ⟨2025, 1, 15⟩ stJan 2025 = stJan
    ∧ get_uploaded_data ⟨2025, 1, 15⟩ true none initialState = initialState :=
  ⟨(claim_C6 stJan.existing_dates 2025 ⟨2025, 1, 15⟩).2.2.1 envAllFail stJan (by decide),
   (claim_C6 [] 2025 ⟨2025, 1, 15⟩).2.2.2 none initialState⟩

/-! ## C7: unit conversion -/

/-- C7: the materialized accumulation equals the raw rate times
(days in the valid month × 86400 × 1000), the valid period being the issue
period advanced by `leadtime_month - 1` months; a rate of 1 over the 30-day
month April 2024 yields 1 × 30 × 86400 × 1000. -/
theorem claim_C7 :
    (∀ (rate : ℚ) (issue : Date) (l : Nat),
      toAccumulation rate issue l =
        rate * ((daysInMonth (addMonths issue (l - 1)).year
          (addMonths issue (l - 1)).month : ℚ) * 86400 * 1000))
    ∧ toAccumulation 1 ⟨2024, 4, 1⟩ 1 = 1 * 30 * 86400 * 1000 := by
  constructor
  · intro rate issue l
    simp only [toAccumulation]
    ring
  · norm_num [toAccumulation, addMonths, daysInMonth, isLeap]

/-! ## C4: the known-period set after recovery -/

/-- Counterexample to C4: with an empty recovered history and run date
2025-01-15, the year 2025 request for month "1" succeeds and its grib file
is registered, yet `existing_dates` stays empty — the period `2025-01` of
the successful retrieval is NOT unioned into the known-period set. -/
theorem claim_C4_counterexample :
    (download_cds_data envAllOk 2025 ⟨2025, 1, 15⟩ true initialState).2.attempts
      = [mkRequest 2025 ["1"]]
    ∧ (download_cds_data envAllOk 2025 ⟨2025, 1, 15⟩ true initialState).2.grib_data
      = [gribPath "r" 2025]
    ∧ "2025-01" ∉
        (download_cds_data envAllOk 2025 ⟨2025, 1, 15⟩ true initialState).2.existing_dates := by
  refine ⟨by decide, by decide, by decide⟩

/-- C4 (amended): the known-period set is never mutated after recovery at
all — not even by a successful retrieval: `download_cds_data` returns it
exactly as `_get_uploaded_data` produced it. -/
theorem claim_C4 (env : CdsEnv) (minYear : Int) (today : Date) (force : Bool)
    (st : PState) :
    (download_cds_data env minYear today force st).2.existing_dates =
      (get_uploaded_data today force env.resources st).existing_dates := by
  simp only [download_cds_data]
  exact foldl_processYear_existing env today (yearRange minYear today) _

/-! ## C3: a fully covered second run retrieves nothing -/

/-- C3: when the recovered history covers every period of the requested
range, every year's missing-month list is empty, the run issues no request,
registers no file, leaves the whole pipeline state exactly as recovery
produced it, and reports `false` ("not updated") — so the caller skips
publishing and the published tables are left unchanged. -/
theorem claim_C3 (env : CdsEnv) (minYear : Int) (today : Date) (force : Bool)
    (st0 : PState)
    (hcov : ∀ y ∈ yearRange minYear today, ∀ m ∈ List.range' 1 (endMonth y today),
      periodStr y m ∈ (get_uploaded_data today force env.resources st0).existing_dates)
    (hg : (get_uploaded_data today force env.resources st0).grib_data = []) :
    (∀ y ∈ yearRange minYear today,
      missingMonths (get_uploaded_data today force env.resources st0).existing_dates
        y today = [])
    ∧ (download_cds_data env minYear today force st0).2 =
        get_uploaded_data today force env.resources st0
    ∧ (download_cds_data env minYear today force st0).1 = false := by
  have hmiss : ∀ y ∈ yearRange minYear today,
      missingMonths (get_uploaded_data today force env.resources st0).existing_dates
        y today = [] := by
    intro y hy
    rw [missingMonths, List.filterMap_eq_nil_iff]
    intro m hm
    simp [hcov y hy m hm]
  have hfold : ∀ (l : List Int) (st : PState),
      (∀ y ∈ l, missingMonths st.existing_dates y today = []) →
      l.foldl (processYear env today) st = st := by
    intro l
    induction l with
    | nil => intro st _; rfl
    | cons y ys ih =>
      intro st h
      rw [List.foldl_cons,
        show processYear env today st y = st from by
          simp [processYear, h y (List.mem_cons_self y ys)]]
      exact ih st (fun z hz => h z (List.mem_cons_of_mem y hz))
  refine ⟨hmiss, ?_, ?_⟩
  · simp only [download_cds_data]
    exact hfold _ _ hmiss
  · simp only [download_cds_data]
    rw [hfold _ _ hmiss, hg]
    rfl

/-- Witness for C3: with recovered history `["2025-01", "2025-02"]` and run
date 2025-02-10, the 2025 iteration computes no missing months, the state is
untouched and the run reports "not updated". -/
theorem claim_C3_witness :
    (∀ y ∈ yearRange 2025 ⟨2025, 2, 10⟩,
      missingMonths (get_uploaded_data ⟨2025, 2, 10⟩ true envAllFail.resources
        stJanFeb).existing_dates y ⟨2025, 2, 10⟩ = [])
    ∧ (download_cds_data envAllFail 2025 ⟨2025, 2, 10⟩ true stJanFeb).2 =
        get_uploaded_data ⟨2025, 2, 10⟩ true envAllFail.resources stJanFeb
    ∧ (download_cds_data envAllFail 2025 ⟨2025, 2, 10⟩ true stJanFeb).1 = false :=
  claim_C3 envAllFail 2025 ⟨2025, 2, 10⟩ true stJanFeb (by decide) (by decide)

/-! ## C5 and C10: the degraded-retry policy -/

/-- Shared computation: a current-year request whose primary attempt fails
(no local file, retrieval error) is followed by exactly one retry whose
request is the same with the last month dropped; both submissions are
logged, and a file is registered only if the retry succeeds. -/
theorem processYear_currentYear_fail (env : CdsEnv) (today : Date) (year : Int)
    (st : PState)
    (hne : missingMonths st.existing_dates year today ≠ [])
    (hy : year = today.year)
    (hnf : env.fileExists (gribPath env.rootDir year) = false)
    (hfail : env.retrieveOk
      (mkRequest year (missingMonths st.existing_dates year today)) = false) :
    processYear env today st year =
      (download_grib env
        (mkRequest year (missingMonths st.existing_dates year today).dropLast)
        (gribPath env.rootDir year)
        { st with attempts := st.attempts ++
            [mkRequest year (missingMonths st.existing_dates year today)] }).2 := by
  subst hy
  simp [processYear, hne, download_grib, hnf, hfail]

/-- Shared computation: a non-current-year request whose primary attempt
fails is not retried; the failed request is logged and nothing else changes. -/
theorem processYear_pastYear_fail (env : CdsEnv) (today : Date) (year : Int)
    (st : PState)
    (hne : missingMonths st.existing_dates year today ≠ [])
    (hy : year ≠ today.year)
    (hnf : env.fileExists (gribPath env.rootDir year) = false)
    (hfail : env.retrieveOk
      (mkRequest year (missingMonths st.existing_dates year today)) = false) :
    processYear env today st year =
      { st with attempts := st.attempts ++
          [mkRequest year (missingMonths st.existing_dates year today)] } := by
  simp [processYear, hne, download_grib, hnf, hfail, hy]

/-- C5: on a failed year there is a retry if and only if the year is the
current year, and then exactly one, with the same request minus its last
month; if the retry also fails, no file is registered and the year's months
stay outside the known-period set, so the same missing-month list is
recomputed afterwards. -/
theorem claim_C5 (env : CdsEnv) (today : Date) (year : Int) (st : PState)
    (hne : missingMonths st.existing_dates year today ≠ [])
    (hnf : env.fileExists (gribPath env.rootDir year) = false)
    (hfail : env.retrieveOk
      (mkRequest year (missingMonths st.existing_dates year today)) = false) :
    (year = today.year →
      (processYear env today st year).attempts =
        st.attempts ++ [mkRequest year (missingMonths st.existing_dates year today),
          mkRequest year (missingMonths st.existing_dates year today).dropLast]
      ∧ mkRequest year (missingMonths st.existing_dates year today).dropLast =
          { mkRequest year (missingMonths st.existing_dates year today) with
              month := (missingMonths st.existing_dates year today).dropLast })
    ∧ (year ≠ today.year →
      (processYear env today st year).attempts =
        st.attempts ++ [mkRequest year (missingMonths st.existing_dates year today)]
      ∧ (processYear env today st year).grib_data = st.grib_data)
    ∧ (year = today.year →
      env.retrieveOk
        (mkRequest year (missingMonths st.existing_dates year today).dropLast) = false →
      (processYear env today st year).grib_data = st.grib_data
      ∧ (processYear env today st year).existing_dates = st.existing_dates
      ∧ missingMonths (processYear env today st year).existing_dates year today =
          missingMonths st.existing_dates year today) := by
  refine ⟨?_, ?_, ?_⟩
  · intro hy
    rw [processYear_currentYear_fail env today year st hne hy hnf hfail]
    refine ⟨?_, rfl⟩
    simp [download_grib, hnf, List.append_assoc]
    by_cases hr : env.retrieveOk
        (mkRequest year (missingMonths st.existing_dates year today).dropLast) <;>
      simp [hr]
  · intro hy
    rw [processYear_pastYear_fail env today year st hne hy hnf hfail]
    exact ⟨rfl, rfl⟩
  · intro hy hr2
    rw [processYear_currentYear_fail env today year st hne hy hnf hfail]
    simp [download_grib, hnf, hr2]
  
/-- Witness for C5: with history `["2025-01"]`, run date 2025-03-15 and a
client that always fails, the 2025 request for months `["2", "3"]` is
retried exactly once with months `["2"]`, nothing is registered and the
missing list is unchanged. -/
theorem claim_C5_witness :
    ((processYear envAllFail ⟨2025, 3, 15⟩ stJan 2025).attempts =
      stJan.attempts ++ [mkRequest 2025 ["2", "3"], mkRequest 2025 ["2"]]
    ∧ mkRequest 2025 ["2"] = { mkRequest 2025 ["2", "3"] with month := ["2"] })
    ∧ ((processYear envAllFail ⟨2025, 3, 15⟩ stJan 2025).grib_data = stJan.grib_data
    ∧ (processYear envAllFail ⟨2025, 3, 15⟩ stJan 2025).existing_dates =
        stJan.existing_dates
    ∧ missingMonths (processYear envAllFail ⟨2025, 3, 15⟩ stJan 2025).existing_dates
        2025 ⟨2025, 3, 15⟩ = ["2", "3"]) :=
  ⟨(claim_C5 envAllFail ⟨2025, 3, 15⟩ 2025 stJan (by decide) rfl rfl).1 rfl,
   (claim_C5 envAllFail ⟨2025, 3, 15⟩ 2025 stJan (by decide) rfl rfl).2.2 rfl rfl⟩

/-- C10: the degraded retry is submitted even when the failing current-year
request covered a single month — the retry then carries an empty month
list; in general the retry month list is always the original minus its last
element. -/
theorem claim_C10 (env : CdsEnv) (today : Date) (year : Int) (st : PState)
    (hy : year = today.year)
    (hnf : env.fileExists (gribPath env.rootDir year) = false)
    (hfail : env.retrieveOk
      (mkRequest year (missingMonths st.existing_dates year today)) = false) :
    ((missingMonths st.existing_dates year today).length = 1 →
      (processYear env today st year).attempts =
        st.attempts ++ [mkRequest year (missingMonths st.existing_dates year today),
          mkRequest year []])
    ∧ (missingMonths st.existing_dates year today ≠ [] →
      (processYear env today st year).attempts =
        st.attempts ++ [mkRequest year (missingMonths st.existing_dates year today),
          mkRequest year (missingMonths st.existing_dates year today).dropLast]) := by
  have hgen : missingMonths st.existing_dates year today ≠ [] →
      (processYear env today st year).attempts =
        st.attempts ++ [mkRequest year (missingMonths st.existing_dates year today),
          mkRequest year (missingMonths st.existing_dates year today).dropLast] := by
    intro hne
    rw [processYear_currentYear_fail env today year st hne hy hnf hfail]
    simp [download_grib, hnf, List.append_assoc]
    by_cases hr : env.retrieveOk
        (mkRequest year (missingMonths st.existing_dates year today).dropLast) <;>
      simp [hr]
  refine ⟨?_, hgen⟩
  intro hlen
  have hne : missingMonths st.existing_dates year today ≠ [] := by
    intro h
    rw [h] at hlen
    simp at hlen
  have hdrop : (missingMonths st.existing_dates year today).dropLast = [] := by
    obtain ⟨a, ha⟩ := List.length_eq_one.mp hlen
    rw [ha]
    rfl
  rw [hgen hne, hdrop]

/-- Witness for C10: with history `["2025-01", "2025-02"]` and run date
2025-03-15, the current-year request carries the single month `["3"]`; after
its failure the retry is still submitted, with an empty month list. -/
theorem claim_C10_witness :
    (processYear envAllFail ⟨2025, 3, 15⟩ stJanFeb 2025).attempts =
      stJanFeb.attempts ++ [mkRequest 2025 ["3"], mkRequest 2025 []] :=
  (claim_C10 envAllFail ⟨2025, 3, 15⟩ 2025 stJanFeb rfl rfl rfl).1 (by decide)

/-! ## C1: the 3-year recency partition boundary -/

/-- Counterexample to C1: with run date 2025-03-01 the cutoff
`today - relativedelta(years=3)` is exactly 2025-03-01 minus 3 years, i.e.
2022-03-01, and a level-1 row whose valid period is exactly 3 years before
the run date (valid month 2022-03, datetime 2022-03-01) IS appended to
`adm1_global_3yrs` — the code compares with `>=`, so the claim's boundary
example fails. -/
theorem claim_C1_counterexample :
    past3yrs ⟨2025, 3, 1⟩ = ⟨2022, 3, 1⟩
    ∧ "adm1_global_3yrs" ∈ routeAdm1 ⟨2025, 3, 1⟩ ⟨2022, 3, 1⟩ none [] := by
  refine ⟨by decide, by decide⟩

/-- C1 (amended): a level-1 row is appended to `adm1_global_3yrs` if and
only if its valid datetime (first of the valid month) is `>=` the run
datetime minus 3 years; a valid period exactly 3 years minus 1 month before
the run date is always appended; a valid period exactly 3 years before the
run date is not appended when the run date's day of month is at least 2
(when the run date is the 1st it is appended, see the counterexample). -/
theorem claim_C1 (today vt : Date) (iso : Option String)
    (regions : List (String × List String))
    (hm1 : 1 ≤ today.month) (hm2 : today.month ≤ 12)
    (hreg : ∀ p ∈ regions, "adm1_" ++ (Prod.fst p).toLower ≠ "adm1_global_3yrs") :
    ("adm1_global_3yrs" ∈ routeAdm1 today vt iso regions ↔
      dateLe (past3yrs today) vt = true)
    ∧ (2 ≤ today.day →
        "adm1_global_3yrs" ∉
          routeAdm1 today ⟨today.year - 3, today.month, 1⟩ iso regions)
    ∧ "adm1_global_3yrs" ∈
        routeAdm1 today (addMonths ⟨today.year - 3, today.month, 1⟩ 1) iso regions := by
  have hnotreg : "adm1_global_3yrs" ∉ regionIdents regions iso := by
    intro h
    rw [regionIdents, List.mem_filterMap] at h
    obtain ⟨p, hp, hval⟩ := h
    by_cases hin : isoIn iso p.2 = true
    · rw [if_pos hin] at hval
      exact hreg p hp (Option.some.inj hval)
    · rw [if_neg hin] at hval
      cases hval
  have hiff : ∀ v : Date, "adm1_global_3yrs" ∈ routeAdm1 today v iso regions ↔
      dateLe (past3yrs today) v = true := by
    intro v
    rw [routeAdm1, List.mem_append]
    constructor
    · rintro (h | h)
      · by_cases hb : dateLe (past3yrs today) v = true
        · exact hb
        · rw [if_neg (by simp [hb])] at h
          cases h
      · exact absurd h hnotreg
    · intro hb
      left
      rw [if_pos hb]
      exact List.mem_singleton.mpr rfl
  refine ⟨hiff vt, ?_, ?_⟩
  · intro hd
    rw [hiff ⟨today.year - 3, today.month, 1⟩]
    have h28 : 28 ≤ daysInMonth (today.year - 3) today.month :=
      daysInMonth_ge (today.year - 3) today.month
    simp only [past3yrs, subYears, dateLe]
    simp only [Bool.or_eq_true, Bool.and_eq_true, decide_eq_true_eq]
    omega
  · rw [hiff (addMonths ⟨today.year - 3, today.month, 1⟩ 1)]
    have h28 : 28 ≤ daysInMonth (today.year - 3) today.month :=
      daysInMonth_ge (today.year - 3) today.month
    simp only [past3yrs, subYears, addMonths, dateLe]
    simp only [Bool.or_eq_true, Bool.and_eq_true, decide_eq_true_eq]
    omega

/-- Witness for C1: with run date 2025-03-15, a valid datetime 2024-01-01 is
appended (it is `>=` 2022-03-15); the valid period 2022-03 — exactly 3 years
before — is not appended; the valid period 2022-04 — 3 years minus 1 month
before — is appended. -/
theorem claim_C1_witness :
    ("adm1_global_3yrs" ∈ routeAdm1 ⟨2025, 3, 15⟩ ⟨2024, 1, 1⟩ none [] ↔
      dateLe (past3yrs ⟨2025, 3, 15⟩) ⟨2024, 1, 1⟩ = true)
    ∧ (2 ≤ (15 : Nat) →
        "adm1_global_3yrs" ∉ routeAdm1 ⟨2025, 3, 15⟩ ⟨2025 - 3, 3, 1⟩ none [])
    ∧ "adm1_global_3yrs" ∈
        routeAdm1 ⟨2025, 3, 15⟩ (addMonths ⟨2025 - 3, 3, 1⟩ 1) none [] :=
  claim_C1 ⟨2025, 3, 15⟩ ⟨2024, 1, 1⟩ none [] (by decide) (by decide) (by simp)

/-! ## C8: the country-code decision table -/

/-- C8: the resolution decision table of `_get_country_info`: codes longer
than 3 are first truncated to their first 2 characters; a length-3 code is
used as the ISO3 directly and resolved to a name; a length-2 code goes
through the ISO2→ISO3 collaborator and, when that resolves, on to the name
collaborator; any code that resolves to no ISO3 yields null ISO3 and null
name (and the function is total — aggregation never aborts). -/
theorem claim_C8 (g2 g3 : String → Option String) (code : String) :
    (code.length = 3 → get_country_info g2 g3 code = (some code, g3 code))
    ∧ (code.length = 2 → g2 code = none →
        get_country_info g2 g3 code = (none, none))
    ∧ (∀ iso, code.length = 2 → g2 code = some iso → iso ≠ "" →
        get_country_info g2 g3 code = (some iso, g3 iso))
    ∧ (3 < code.length →
        get_country_info g2 g3 code =
          get_country_info g2 g3 (String.mk (code.data.take 2)))
    ∧ (code.length ≤ 1 → get_country_info g2 g3 code = (none, none)) := by
  refine ⟨?_, ?_, ?_, ?_, ?_⟩
  · intro h3
    have hne : code ≠ "" := by
      intro he
      rw [he] at h3
      simp at h3
    have hn4 : ¬ 3 < code.length := by omega
    simp only [get_country_info]
    rw [if_neg hn4, if_pos h3]
    simp [hne]
  · intro h2 hg
    have hn4 : ¬ 3 < code.length := by omega
    have hn3 : ¬ code.length = 3 := by omega
    simp only [get_country_info]
    rw [if_neg hn4, if_neg hn3, if_pos h2, hg]
  · intro iso h2 hg hne
    have hn4 : ¬ 3 < code.length := by omega
    have hn3 : ¬ code.length = 3 := by omega
    simp only [get_country_info]
    rw [if_neg hn4, if_neg hn3, if_pos h2, hg]
    simp [hne]
  · intro h4
    have hlen : (String.mk (code.data.take 2)).length = 2 := by
      have h : (String.mk (code.data.take 2)).length = (code.data.take 2).length := rfl
      have h2 : code.length = code.data.length := rfl
      rw [h, List.length_take]
      omega
    have hB : ¬ 3 < (String.mk (code.data.take 2)).length := by
      rw [hlen]
      omega
    simp only [get_country_info]
    rw [if_pos h4, if_neg hB]
  · intro h1
    have hn4 : ¬ 3 < code.length := by omega
    have hn3 : ¬ code.length = 3 := by omega
    have hn2 : ¬ code.length = 2 := by omega
    simp only [get_country_info]
    rw [if_neg hn4, if_neg hn3, if_neg hn2]

/-- Concrete ISO2→ISO3 collaborator used by the C8 witness. -/
def g2Demo : String → Option String :=
  fun s => if s = "US" then some "USA" else none

/-- Concrete ISO3→name collaborator used by the C8 witness. -/
def g3Demo : String → Option String :=
  fun s => if s = "USA" then some "United States of America" else none

/-- Witness for C8: the length-2 code "US" resolves through ISO2→ISO3 to
"USA" and then to its country name. -/
theorem claim_C8_witness :
    get_country_info g2Demo g3Demo "US" = (some "USA", g3Demo "USA") :=
  (claim_C8 g2Demo g3Demo "US").2.2.1 "USA" (by decide) (by decide) (by decide)

/-! ## C9: at most one region partition per row -/

/-- `dictOfListsAdd` grows, for any probe `iso`, the number of entries whose
list contains `iso` by at most one, and only when `iso` is the added value. -/
theorem countP_dictOfListsAdd (d : List (String × List String)) (k v iso : String) :
    (dictOfListsAdd d k v).countP (fun p => decide (iso ∈ p.2)) ≤
      d.countP (fun p => decide (iso ∈ p.2)) + (if iso = v then 1 else 0) := by
  induction d with
  | nil =>
    by_cases h : iso = v <;>
      simp [dictOfListsAdd, List.countP_cons, h]
  | cons p rest ih =>
    by_cases hk : p.1 = k
    · simp only [dictOfListsAdd, if_pos hk, List.countP_cons]
      by_cases h1 : iso ∈ p.2 <;> by_cases h2 : iso = v <;>
        simp [h1, h2] <;> try omega
    · simp only [dictOfListsAdd, if_neg hk, List.countP_cons]
      by_cases h1 : iso ∈ p.2 <;> by_cases h2 : iso = v <;>
        simp [h1, h2] at ih ⊢ <;> omega

/-- One `_get_region_info` step grows, for any probe `iso`, the number of
region entries containing `iso` by at most one, and only for the record
keyed by `iso`. -/
theorem countP_regionStep (acc : List (String × List String))
    (c : String × Option String) (iso : String) :
    (regionStep acc c).countP (fun p => decide (iso ∈ p.2)) ≤
      acc.countP (fun p => decide (iso ∈ p.2)) + (if iso = c.1 then 1 else 0) := by
  match hc : c.2 with
  | none =>
    simp only [regionStep, hc]
    exact Nat.le_add_right _ _
  | some r =>
    by_cases hr : r = ""
    · simp only [regionStep, hc, if_pos hr]
      exact Nat.le_add_right _ _
    · simp only [regionStep, hc, if_neg hr]
      exact countP_dictOfListsAdd acc r c.1 iso

/-- Folding `_get_region_info` over the country list bounds, for any probe
`iso`, the number of region entries containing `iso` by the number of
country records keyed by `iso`. -/
theorem countP_region_fold (countries : List (String × Option String))
    (iso : String) :
    ∀ acc : List (String × List String),
      (countries.foldl regionStep acc).countP (fun p => decide (iso ∈ p.2)) ≤
        acc.countP (fun p => decide (iso ∈ p.2)) +
          countries.countP (fun c => decide (c.1 = iso)) := by
  induction countries with
  | nil => intro acc; simp
  | cons c rest ih =>
    intro acc
    rw [List.foldl_cons]
    simp only [List.countP_cons]
    have hstep := countP_regionStep acc c iso
    have htail := ih (regionStep acc c)
    by_cases h2 : c.1 = iso
    · simp only [h2] at hstep ⊢
      simp at hstep ⊢
      omega
    · have h2b : ¬ iso = c.1 := fun he => h2 he.symm
      simp only [if_neg h2b] at hstep
      simp [h2]
      omega

/-- With pairwise-distinct keys, at most one record is keyed by `iso`. -/
theorem countP_key_nodup (l : List (String × Option String)) (iso : String)
    (h : (l.map Prod.fst).Nodup) : l.countP (fun c => decide (c.1 = iso)) ≤ 1 := by
  induction l with
  | nil => simp
  | cons c rest ih =>
    rw [List.map_cons, List.nodup_cons] at h
    simp only [List.countP_cons]
    by_cases hc : c.1 = iso
    · have hzero : rest.countP (fun c => decide (c.1 = iso)) = 0 := by
        rw [List.countP_eq_zero]
        intro a ha
        simp only [decide_eq_true_eq]
        intro hae
        apply h.1
        have hmem : a.1 ∈ rest.map Prod.fst := List.mem_map_of_mem Prod.fst ha
        rw [hae, ← hc] at hmem
        exact hmem
      simp [hc, hzero]
    · simp [hc]
      exact ih h.2

/-- With pairwise-distinct country keys (Python dict semantics), each ISO3
code appears in at most one region's membership list. -/
theorem countP_get_region_info (countries : List (String × Option String))
    (h : (countries.map Prod.fst).Nodup) (iso : String) :
    (get_region_info countries).countP (fun p => decide (iso ∈ p.2)) ≤ 1 := by
  have h1 := countP_region_fold countries iso []
  simp only [List.countP_nil, Nat.zero_add] at h1
  exact le_trans h1 (countP_key_nodup countries iso h)

/-- The region component of the routing has one entry per matching region. -/
theorem length_regionIdents (regions : List (String × List String)) (iso : String) :
    (regionIdents regions (some iso)).length =
      regions.countP (fun p => decide (iso ∈ p.2)) := by
  induction regions with
  | nil => rfl
  | cons p rest ih =>
    simp only [regionIdents, isoIn, List.filterMap_cons, List.countP_cons] at ih ⊢
    simp only [decide_eq_true_eq] at ih
    by_cases h : iso ∈ p.2
    · simp [h]
      exact ih
    · simp [h]
      exact ih

/-- C9: with distinct country keys, a level-1 row is appended to at most one
`adm1_<region>` partition, and independently of the region routing it is
appended to the recency partition exactly when its valid datetime passes the
3-year cutoff. -/
theorem claim_C9 (countries : List (String × Option String))
    (h : (countries.map Prod.fst).Nodup) (iso : String) (today vt : Date) :
    (regionIdents (get_region_info countries) (some iso)).length ≤ 1
    ∧ routeAdm1 today vt (some iso) (get_region_info countries) =
        (if dateLe (past3yrs today) vt then ["adm1_global_3yrs"] else []) ++
          regionIdents (get_region_info countries) (some iso) := by
  constructor
  · rw [length_regionIdents]
    exact countP_get_region_info countries h iso
  · rfl

/-- Witness for C9: two countries in two regions; the row for "AFG" lands in
at most one region partition and the recency routing is as computed. -/
theorem claim_C9_witness :
    (regionIdents (get_region_info [("AFG", some "Asia"), ("FRA", some "Europe")])
      (some "AFG")).length ≤ 1
    ∧ routeAdm1 ⟨2025, 3, 15⟩ ⟨2025, 1, 1⟩ (some "AFG")
        (get_region_info [("AFG", some "Asia"), ("FRA", some "Europe")]) =
      (if dateLe (past3yrs ⟨2025, 3, 15⟩) ⟨2025, 1, 1⟩ then ["adm1_global_3yrs"]
        else []) ++
        regionIdents (get_region_info [("AFG", some "Asia"), ("FRA", some "Europe")])
          (some "AFG") :=
  claim_C9 [("AFG", some "Asia"), ("FRA", some "Europe")] (by decide) "AFG"
    ⟨2025, 3, 15⟩ ⟨2025, 1, 1⟩

/-! ## C2: the recovery read -/

/-- Looking up a key right after `d[k] = v` returns `v`. -/
theorem dictLookup_dictSet (d : List (String × List CsvRow)) (k : String)
    (v : List CsvRow) : dictLookup (dictSet d k v) k = some v := by
  induction d with
  | nil => simp [dictSet, dictLookup]
  | cons p rest ih =>
    by_cases h : p.1 = k
    · simp [dictSet, dictLookup, h]
    · simp [dictSet, dictLookup, h, ih]

/-- The published recent-window resource used by the C2 counterexample: it
contains one stale row (issue 2021-01) and one recent row (issue 2025-01). -/
def res3yrsDemo : PubResource :=
  { name := "forecast_precipitation_anomalies_adm1_global_3yrs.csv",
    format := "csv",
    rows := [⟨2021, 1, "old"⟩, ⟨2025, 1, "new"⟩] }

/-- Counterexample to C2: recovering the `adm1_global_3yrs` resource at run
date 2025-03-15 does NOT load its rows verbatim — the stale 2021-01 row is
filtered out, so the recovered table differs from the published row set. -/
theorem claim_C2_counterexample :
    dictLookup (get_uploaded_data ⟨2025, 3, 15⟩ false (some [res3yrsDemo])
        initialState).processed "adm1_global_3yrs" =
      some [⟨2025, 1, "new"⟩]
    ∧ res3yrsDemo.rows ≠ [(⟨2025, 1, "new"⟩ : CsvRow)] := by
  refine ⟨by decide, by decide⟩

/-- C2 (amended): a recovered CSV resource's rows are loaded verbatim as the
existing table for its partition unless the resource name contains "3yrs";
such a resource is instead filtered to the rows whose issue-period string
strictly exceeds the (non-zero-padded) `YYYY-M` string of the run date minus
3 years. -/
theorem claim_C2 (today : Date) (r : PubResource) (st : PState)
    (hf : r.format = "csv") :
    (strContains r.name "3yrs" = false →
      dictLookup (recoverResource today st r).processed (recoverIdentifier r.name) =
        some r.rows)
    ∧ (strContains r.name "3yrs" = true →
      dictLookup (recoverResource today st r).processed (recoverIdentifier r.name) =
        some (r.rows.filter (fun row =>
          strLt (cutoffStr today) (periodStr row.issue_year row.issue_month)))) := by
  constructor <;> intro hc <;>
    simp [recoverResource, hf, hc, dictLookup_dictSet]

/-- The published full-history resource used by the C2 witness. -/
def resAdm0Demo : PubResource :=
  { name := "forecast_precipitation_anomalies_adm0.csv",
    format := "csv",
    rows := [⟨2024, 1, "x"⟩, ⟨2024, 2, "y"⟩] }

/-- Witness for C2: a resource without "3yrs" in its name is recovered
verbatim under the identifier stripped from its file name. -/
theorem claim_C2_witness :
    dictLookup (recoverResource ⟨2025, 3, 15⟩ initialState resAdm0Demo).processed
      (recoverIdentifier resAdm0Demo.name) = some resAdm0Demo.rows :=
  (claim_C2 ⟨2025, 3, 15⟩ resAdm0Demo initialState rfl).1 (by decide)
